import Mathlib

/-!
Shallow embedding of the flauta recorder-learning app.

The embedding follows the TypeScript sources:
 - src/types.ts              : the MIDI data model
 - src/components/SheetMusic.tsx : getNoteY, the active-note predicate of the
   sheet view, and the piano-roll label and active-note computations
 - src/App.tsx               : loadUserSong, setupSynthesizers, handleSpeedChange
 - src/services/geminiService.ts : analyzeMidiForStudents, its prompt
   construction and its hard-coded fallback payload

Numbers that are JavaScript floats in the source are modelled as rationals;
every value actually occurring in the program is an exact decimal, so no
rounding behaviour is lost.
-/

namespace Flauta

/-- A tempo entry of the MIDI header (src/types.ts, `tempos: { bpm: number }[]`). -/
structure Tempo where
  bpm : ℚ
deriving Repr, DecidableEq

/-- A time-signature entry of the MIDI header (src/types.ts). -/
structure TimeSig where
  timeSignature : List ℕ
deriving Repr, DecidableEq

/-- The MIDI header (src/types.ts, `MidiData.header`). -/
structure Header where
  name : String
  tempos : List Tempo
  timeSignatures : List TimeSig
deriving Repr, DecidableEq

/-- A note of a track (src/types.ts, `Note`). -/
structure Note where
  name : String
  midi : ℤ
  time : ℚ
  duration : ℚ
  velocity : ℚ
deriving Repr, DecidableEq

/-- The instrument metadata of a track (src/types.ts). -/
structure Instrument where
  family : String
  name : String
deriving Repr, DecidableEq

/-- A track (src/types.ts, `Track`). -/
structure Track where
  name : String
  notes : List Note
  instrument : Instrument
deriving Repr, DecidableEq

/-- The parsed MIDI file (src/types.ts, `MidiData`). -/
structure MidiData where
  header : Header
  duration : ℚ
  tracks : List Track
deriving Repr, DecidableEq

/-- The result shape of the AI analysis (src/types.ts, `AnalysisResult`). -/
structure AnalysisResult where
  difficulty : String
  tips : List String
  description : String
deriving Repr, DecidableEq

/-! ## SheetMusic.tsx: getNoteY -/

/-- `STAFF_LINE_HEIGHT = 10` (src/components/SheetMusic.tsx). -/
def STAFF_LINE_HEIGHT : ℚ := 10

/-- `STAFF_TOP_Y = 60` (src/components/SheetMusic.tsx). -/
def STAFF_TOP_Y : ℚ := 60

/-- The literal `map` object inside getNoteY (src/components/SheetMusic.tsx,
lines 47-65): MIDI pitch to visual staff step, written in the source order. -/
def noteYMap (m : ℤ) : Option ℚ :=
  if m = 86 then some (-(9/2))
  else if m = 84 then some (-(7/2))
  else if m = 83 then some (-3)
  else if m = 81 then some (-2)
  else if m = 79 then some (-1)
  else if m = 77 then some 0
  else if m = 76 then some (1/2)
  else if m = 74 then some 1
  else if m = 72 then some (3/2)
  else if m = 71 then some 2
  else if m = 69 then some (5/2)
  else if m = 67 then some 3
  else if m = 65 then some (7/2)
  else if m = 64 then some 4
  else if m = 62 then some (9/2)
  else if m = 60 then some 5
  else if m = 59 then some (11/2)
  else none

/-- `getNoteY` (src/components/SheetMusic.tsx, lines 32-75): the map value when
present, otherwise the linear fallback `(77 - midiNote) * 0.5`, scaled onto the
staff as `STAFF_TOP_Y + visualStep * STAFF_LINE_HEIGHT`. -/
def getNoteY (midiNote : ℤ) : ℚ :=
  let visualStep : ℚ :=
    match noteYMap midiNote with
    | some v => v
    | none => (77 - (midiNote : ℚ)) * (1/2)
  STAFF_TOP_Y + visualStep * STAFF_LINE_HEIGHT

/-- The 17 pitches the claim lists as the domain of the lookup map
(59 through 86, diatonic set). -/
def mappedPitches : List ℤ := [59, 60, 62, 64, 65, 67, 69, 71, 72, 74, 76, 77, 79, 81, 83, 84, 86]

/-! ## App.tsx: loadUserSong -/

/-- `quarter = 60 / bpm` with `bpm = 120` (src/App.tsx, lines 29-30): the length
of a quarter note in seconds. -/
def quarterSeconds : ℚ := 60 / 120

/-- `createNote` (src/App.tsx, lines 33-39): a note from its name, MIDI pitch,
beat offset and beat length, at fixed velocity 0.8. -/
def createNote (name : String) (midi : ℤ) (startBeat durationBeats : ℚ) : Note :=
  { name := name
    midi := midi
    time := startBeat * quarterSeconds
    duration := durationBeats * quarterSeconds
    velocity := 4/5 }

/-- The literal notes array of the built-in song (src/App.tsx, lines 42-82),
measure by measure in source order. -/
def userSongNotes : List Note :=
  [ createNote ("E4") 64 0 1
  , createNote ("E4") 64 1 1
  , createNote ("F4") 65 2 1
  , createNote ("G4") 67 3 1
  , createNote ("G4") 67 4 1
  , createNote ("F4") 65 5 1
  , createNote ("E4") 64 6 1
  , createNote ("D4") 62 7 1
  , createNote ("C4") 60 8 1
  , createNote ("C4") 60 9 1
  , createNote ("D4") 62 10 1
  , createNote ("E4") 64 11 1
  , createNote ("E4") 64 12 (3/2)
  , createNote ("D4") 62 (27/2) (1/2)
  , createNote ("D4") 62 14 2
  , createNote ("E4") 64 16 1
  , createNote ("E4") 64 17 1
  , createNote ("F4") 65 18 1
  , createNote ("G4") 67 19 1
  , createNote ("G4") 67 20 1
  , createNote ("F4") 65 21 1
  , createNote ("E4") 64 22 1
  , createNote ("D4") 62 23 1
  , createNote ("C4") 60 24 1
  , createNote ("C4") 60 25 1
  , createNote ("D4") 62 26 1
  , createNote ("E4") 64 27 1
  , createNote ("D4") 62 28 (3/2)
  , createNote ("C4") 60 (59/2) (1/2)
  , createNote ("C4") 60 30 2 ]

/-- `loadUserSong` (src/App.tsx, lines 25-99): the constant MidiData the app
loads on mount. It takes no input, so every call yields this same value. -/
def loadUserSong : MidiData :=
  { header :=
      { name := "Canción para Estudiar"
        tempos := [{ bpm := 120 }]
        timeSignatures := [{ timeSignature := [4, 4] }] }
    duration := 32 * quarterSeconds
    tracks :=
      [ { name := "Flauta"
          notes := userSongNotes
          instrument := { family := "woodwind", name := "recorder" } } ] }

/-- The beat offsets of the 30 notes of the built-in song, read off the
createNote calls in source order. -/
def userSongBeatOffsets : List ℚ :=
  [0, 1, 2, 3, 4, 5, 6, 7, 8, 9, 10, 11, 12, 27/2, 14,
   16, 17, 18, 19, 20, 21, 22, 23, 24, 25, 26, 27, 28, 59/2, 30]

/-- The beat lengths of the 30 notes of the built-in song, read off the
createNote calls in source order. -/
def userSongBeatLengths : List ℚ :=
  [1, 1, 1, 1, 1, 1, 1, 1, 1, 1, 1, 1, 3/2, 1/2, 2,
   1, 1, 1, 1, 1, 1, 1, 1, 1, 1, 1, 1, 3/2, 1/2, 2]

/-- All notes of the built-in song, flattened across tracks as both renderers
do (`midiData.tracks.flatMap(t => t.notes)`). -/
def userSongAllNotes : List Note := (loadUserSong.tracks.map Track.notes).flatten

/-! ## SheetMusic.tsx / PianoRoll: labels and active-note predicates -/

/-- The `noteNames` array of the piano-roll renderer
(src/components/SheetMusic.tsx, PianoRoll, line 307). -/
def noteNames : List String :=
  ["C", "C#", "D", "D#", "E", "F"] ++ ["F#", "G", "G#", "A", "A#", "B"]

/-- The piano-roll row label (src/components/SheetMusic.tsx, PianoRoll, lines
306-311): `noteNames[midiNote % 12]` concatenated with
`Math.floor(midiNote / 12) - 1`. The array access is modelled as `get?`, so an
out-of-bounds index would surface as `none`. -/
def pianoRollLabel (midiNote : ℕ) : Option String :=
  (noteNames.get? (midiNote % 12)).map
    (fun s => s ++ toString ((midiNote : ℤ) / 12 - 1))

/-- The sheet view's active test (src/components/SheetMusic.tsx, line 143):
`currentTime >= note.time && currentTime < (note.time + note.duration)`. -/
def sheetIsActive (currentTime : ℚ) (note : Note) : Bool :=
  decide (currentTime ≥ note.time) && decide (currentTime < note.time + note.duration)

/-- The piano-roll's active test (src/components/SheetMusic.tsx, line 344):
`currentTime >= note.time && currentTime < (note.time + note.duration)`. -/
def pianoIsPlayingNote (currentTime : ℚ) (note : Note) : Bool :=
  decide (currentTime ≥ note.time) && decide (currentTime < note.time + note.duration)

/-! ## geminiService.ts: prompt construction and analyzeMidiForStudents -/

/-- First-occurrence deduplication, the effect of the JavaScript
`Array.from(new Set(notes))` (src/services/geminiService.ts, line 20): keeps
the first occurrence of each element, in order. `seen` accumulates the
elements already emitted. -/
def dedupFirstAux (seen : List String) : List String → List String
  | [] => []
  | x :: xs => if x ∈ seen then dedupFirstAux seen xs else x :: dedupFirstAux (x :: seen) xs

/-- `Array.from(new Set(notes))`: the note names with later duplicates removed. -/
def dedupFirst (l : List String) : List String := dedupFirstAux [] l

/-- `Array.from(new Set(notes)).sort()` (src/services/geminiService.ts, lines
19-20): the distinct note names of a track in ascending lexicographic order. -/
def sortedUniqueNames (track : Track) : List String :=
  List.insertionSort (· ≤ ·) (dedupFirst (track.notes.map (fun n => n.name)))

/-- `midiData.header.tempos[0]?.bpm || 120` (src/services/geminiService.ts,
line 21): the first tempo entry's bpm, with 120 substituted when the entry is
absent or its bpm is 0 (JavaScript `||` replaces every falsy value). -/
def promptTempo (m : MidiData) : ℚ :=
  match m.header.tempos.head? with
  | none => 120
  | some t => if t.bpm = 0 then 120 else t.bpm

/-- `midiData.duration.toFixed(2)` (src/services/geminiService.ts, line 22):
the duration printed with exactly two decimal places, rounding half away from
zero on the scaled value. -/
def toFixed2 (q : ℚ) : String :=
  let scaled : ℤ := if q < 0 then -(⌊(-q) * 100 + 1/2⌋) else ⌊q * 100 + 1/2⌋
  let sign : String := if scaled < 0 then "-" else ""
  let a : ℕ := scaled.natAbs
  let frac : ℕ := a % 100
  let fracStr : String := if frac < 10 then "0" ++ toString frac else toString frac
  sign ++ toString (a / 100) ++ "." ++ fracStr

/-- The template literal of the prompt (src/services/geminiService.ts, lines
25-36), as a function of its three interpolated values. -/
def promptTemplate (notesUsed : String) (tempo : ℚ) (durationStr : String) : String :=
  "\n      Actúa como un profesor experto de música para niños que aprenden Flauta Dulce (Recorder).\n      Analiza los siguientes datos de una canción MIDI:\n      - Notas usadas: " ++
  notesUsed ++
  "\n      - Tempo original: " ++
  toString tempo ++
  " BPM\n      - Duración: " ++
  durationStr ++
  " segundos\n      \n      Provee una respuesta estructurada en JSON con:\n      1. \x27difficulty\x27: Nivel de dificultad (Fácil, Intermedio, Avanzado) basado en las notas (ej. si usa sostenidos difíciles o notas muy agudas).\n      2. \x27tips\x27: Un array de 3 consejos breves y prácticos para tocar esta pieza en flauta dulce (ej. digitación de notas específicas, control de aire).\n      3. \x27description\x27: Una descripción muy breve y animada de qué parece ser la canción (basado en ritmo/notas) o simplemente palabras de ánimo.\n    "

/-- The prompt the success path builds for the first track
(src/services/geminiService.ts, lines 19-36). -/
def buildPrompt (m : MidiData) (track : Track) : String :=
  promptTemplate (String.intercalate (", ") (sortedUniqueNames track))
    (promptTempo m) (toFixed2 m.duration)

/-- The prompt as a function of the whole input: none exactly when the input
has no track 0, in which case the code throws before the prompt is built. -/
def builtPrompt (m : MidiData) : Option String :=
  m.tracks.head?.map (buildPrompt m)

/-- The outcome of the one network exchange as seen by a single call: the
request either rejects or resolves, and a resolved response carries
`response.text`, with none modelling an undefined text field. -/
inductive AiOutcome where
  | reject : AiOutcome
  | resolve : Option String → AiOutcome
deriving Repr, DecidableEq

/-- The ambient state of one analyzeMidiForStudents call: whether process.env
holds an API key, the exchange outcome, and the JSON decoding of a response
body, with none modelling a JSON.parse exception. -/
structure Env where
  hasApiKey : Bool
  outcome : AiOutcome
  parseJson : String → Option AnalysisResult

/-- The hard-coded fallback payload of the catch branch
(src/services/geminiService.ts, lines 62-69). -/
def fallbackAnalysis : AnalysisResult :=
  { difficulty := "Desconocida"
    tips := ["Practica despacio al principio.", "Asegúrate de tapar bien los agujeros.", "Disfruta la música."]
    description := "No pudimos conectar con el profesor virtual, ¡pero tú puedes hacerlo!" }

/-- The body of the try block of analyzeMidiForStudents
(src/services/geminiService.ts, lines 12-60), in source order: the API-key
check of initGenAI, the track-0 check, the prompt construction, the network
exchange, the empty-text check (an empty string is falsy in JavaScript), and
the JSON decoding. Every `throw` becomes an `Except.error` with its message. -/
def analyzeMidiTry (env : Env) (m : MidiData) : Except String AnalysisResult :=
  if env.hasApiKey = false then Except.error ("API Key is missing")
  else
    match m.tracks.head? with
    | none => Except.error ("No tracks found")
    | some track =>
      let _prompt : String := buildPrompt m track
      match env.outcome with
      | AiOutcome.reject => Except.error ("network request rejected")
      | AiOutcome.resolve none => Except.error ("No response from AI")
      | AiOutcome.resolve (some text) =>
        if text = "" then Except.error ("No response from AI")
        else
          match env.parseJson text with
          | none => Except.error ("JSON parse error")
          | some r => Except.ok r

/-- analyzeMidiForStudents (src/services/geminiService.ts, lines 11-69): the
try body guarded by the catch branch, which returns the fallback payload; the
returned promise therefore always resolves. -/
def analyzeMidiForStudents (env : Env) (m : MidiData) : AnalysisResult :=
  match analyzeMidiTry env m with
  | Except.ok r => r
  | Except.error _ => fallbackAnalysis

/-! ## App.tsx: setupSynthesizers and handleSpeedChange -/

/-- One event handed to `new Tone.Part` (src/App.tsx, lines 134-139). -/
structure PartEvent where
  time : ℚ
  note : String
  duration : ℚ
  velocity : ℚ
deriving Repr, DecidableEq

/-- setupSynthesizers (src/App.tsx, lines 110-146), reduced to its observable
effect on the Tone adapter: the Part events built from `data.tracks[0].notes`
and the transport BPM set from `data.header.tempos[0].bpm`. Both are plain
index accesses that fail on an empty array, modelled as none. -/
def setupSynthesizers (data : MidiData) : Option (List PartEvent × ℚ) :=
  match data.tracks.head? with
  | none => none
  | some track =>
    let notesToPlay : List PartEvent := track.notes.map (fun n =>
      { time := n.time, note := n.name, duration := n.duration, velocity := n.velocity })
    match data.header.tempos.head? with
    | none => none
    | some t => some (notesToPlay, t.bpm)

/-- The component state touched by handleSpeedChange: the loaded song, the
playbackRate state and the transport BPM. -/
structure AppState where
  midiData : Option MidiData
  playbackRate : ℚ
  transportBpm : ℚ
deriving Repr

/-- handleSpeedChange (src/App.tsx, lines 169-177): store the parsed rate in
playbackRate and, when a song is loaded, set the transport BPM to the song's
original BPM (`midiData.header.tempos[0].bpm`) times the rate; the tempo
access fails on an empty tempos array, modelled as none. -/
def handleSpeedChange (rate : ℚ) (s : AppState) : Option AppState :=
  match s.midiData with
  | none => some { s with playbackRate := rate }
  | some d =>
    match d.header.tempos.head? with
    | none => none
    | some t => some { s with playbackRate := rate, transportBpm := t.bpm * rate }

/-- A first sample input for the prompt-determinism claim: one track with the
distinct names G4 and E4 in this order, an empty tempo list, duration 16. -/
def promptSampleLeft : MidiData :=
  { header := { name := "a", tempos := [], timeSignatures := [] }
    duration := 16
    tracks :=
      [ { name := "t"
          notes :=
            [ { name := "G4", midi := 67, time := 0, duration := 1, velocity := 1 }
            , { name := "E4", midi := 64, time := 1, duration := 1, velocity := 1 } ]
          instrument := { family := "woodwind", name := "recorder" } } ] }

/-- A second sample input for the prompt-determinism claim: same distinct name
set and same duration as the first sample, but different note order, times,
durations, velocities, multiplicities, an explicit 120 BPM tempo entry, an
extra track and different instrument metadata. -/
def promptSampleRight : MidiData :=
  { header := { name := "b", tempos := [{ bpm := 120 }], timeSignatures := [{ timeSignature := [3, 4] }] }
    duration := 16
    tracks :=
      [ { name := "u"
          notes :=
            [ { name := "E4", midi := 64, time := 5, duration := 2, velocity := 1/2 }
            , { name := "G4", midi := 67, time := 9, duration := 1, velocity := 1 }
            , { name := "E4", midi := 64, time := 0, duration := 1, velocity := 1 } ]
          instrument := { family := "strings", name := "violin" } }
      , { name := "extra"
          notes := [ { name := "A4", midi := 69, time := 0, duration := 1, velocity := 1 } ]
          instrument := { family := "woodwind", name := "recorder" } } ] }

end Flauta

namespace Flauta

/-- C1: getNoteY returns STAFF_TOP_Y + s * STAFF_LINE_HEIGHT with STAFF_TOP_Y = 60
and STAFF_LINE_HEIGHT = 10, where s is the lookup-map value when the pitch is one
of the 17 mapped pitches (59 through 86, diatonic set) and otherwise
s = (77 - m) * 0.5, the linear fallback from the F5 reference note. -/
theorem claim_C1 (m : ℤ) :
    (∀ s : ℚ, noteYMap m = some s → getNoteY m = 60 + s * 10) ∧
    ((noteYMap m).isSome ↔ m ∈ mappedPitches) ∧
    (noteYMap m = none → getNoteY m = 60 + ((77 - (m : ℚ)) * (1/2)) * 10) := by
  refine ⟨?_, ?_, ?_⟩
  · intro s hs
    rw [getNoteY, hs]
    rfl
  · constructor
    · intro hsome
      by_contra hm
      simp only [mappedPitches, List.mem_cons, List.not_mem_nil, or_false] at hm
      push_neg at hm
      obtain ⟨n1, n2, n3, n4, n5, n6, n7, n8, n9, n10, n11, n12, n13, n14, n15, n16, n17⟩ := hm
      rw [noteYMap] at hsome
      split_ifs at hsome <;> simp_all
    · intro hm
      fin_cases hm <;> decide
  · intro hnone
    rw [getNoteY, hnone]
    rfl

/-- Witness for C1: the theorem applied at the mapped pitch 60 (C4, step 5) and
at the unmapped pitch 100 (fallback branch). -/
theorem claim_C1_witness :
    getNoteY 60 = 60 + 5 * 10 ∧ getNoteY 100 = 60 + ((77 - (100 : ℚ)) * (1/2)) * 10 :=
  ⟨(claim_C1 60).1 5 (by decide), (claim_C1 100).2.2 (by decide)⟩

/-- Counterexample to C3 as stated: the single track of the built-in song holds
30 notes, not 31 (measures 1-3 and 5-7 contribute four notes each, measures 4
and 8 three each). -/
theorem claim_C3_counterexample :
    ¬ (loadUserSong.tracks.map (fun t => t.notes.length) = [31]) := by
  decide

/-- C3 (amended: the track holds exactly 30 notes, not 31): loadUserSong is a
constant (it takes no input); it builds a single track named Flauta of exactly
30 notes with pitches in the set C4, D4, E4, F4, G4 (MIDI 60, 62, 64, 65, 67),
header tempo 120 BPM, time signature 4/4, total duration 32 quarter notes = 16
seconds, and each note's time and duration equal to its beat offset and beat
length multiplied by 0.5 seconds. -/
theorem claim_C3 :
    loadUserSong.tracks.map Track.name = ["Flauta"] ∧
    loadUserSong.tracks.map (fun t => t.notes.length) = [30] ∧
    (∀ tr ∈ loadUserSong.tracks, ∀ n ∈ tr.notes, n.midi ∈ ([60, 62, 64, 65, 67] : List ℤ)) ∧
    loadUserSong.header.tempos = [{ bpm := 120 }] ∧
    loadUserSong.header.timeSignatures = [{ timeSignature := [4, 4] }] ∧
    loadUserSong.duration = 32 * quarterSeconds ∧
    loadUserSong.duration = 16 ∧
    loadUserSong.tracks.map (fun t => t.notes.map Note.time) =
      [userSongBeatOffsets.map (fun b => b * (1/2))] ∧
    loadUserSong.tracks.map (fun t => t.notes.map Note.duration) =
      [userSongBeatLengths.map (fun b => b * (1/2))] := by
  refine ⟨by decide, by decide, by decide, by decide, by decide, rfl, ?_, ?_, ?_⟩
  · show (32 : ℚ) * quarterSeconds = 16
    rw [quarterSeconds]
    norm_num
  · simp only [loadUserSong, userSongNotes, createNote, quarterSeconds,
      userSongBeatOffsets, userSongBeatLengths, List.map_cons, List.map_nil,
      List.cons.injEq, and_true]
    norm_num
  · simp only [loadUserSong, userSongNotes, createNote, quarterSeconds,
      userSongBeatOffsets, userSongBeatLengths, List.map_cons, List.map_nil,
      List.cons.injEq, and_true]
    norm_num

/-- C7: for every MIDI note number m with 0 <= m <= 127, the piano-roll row
label is noteNames[m mod 12] concatenated with floor(m / 12) - 1; the index
m mod 12 is always within the bounds of the 12-element array, and m = 60 is
labelled C4. -/
theorem claim_C7 (m : ℕ) (h : m ≤ 127) :
    m % 12 < noteNames.length ∧
    pianoRollLabel m =
      (noteNames.get? (m % 12)).map (fun s => s ++ toString ((m : ℤ) / 12 - 1)) ∧
    (pianoRollLabel m).isSome = true ∧
    (m = 60 → pianoRollLabel m = some ("C4")) := by
  have h12 : m % 12 < 12 := Nat.mod_lt _ (by norm_num)
  refine ⟨by simpa [noteNames] using h12, rfl, ?_, ?_⟩
  · rw [pianoRollLabel]
    rcases hg : noteNames.get? (m % 12) with _ | s
    · rw [List.get?_eq_none] at hg
      simp [noteNames] at hg
      omega
    · simp
  · intro he
    subst he
    decide

/-- Witness for C7: the theorem applied at m = 60. -/
theorem claim_C7_witness :
    60 % 12 < noteNames.length ∧
    pianoRollLabel 60 =
      (noteNames.get? (60 % 12)).map (fun s => s ++ toString ((60 : ℤ) / 12 - 1)) ∧
    (pianoRollLabel 60).isSome = true ∧
    (60 = 60 → pianoRollLabel 60 = some ("C4")) :=
  claim_C7 60 (by decide)

/-- C8: the sheet-music view and the piano-roll use the same half-open
activeness interval note.time <= t < note.time + note.duration, so the two
renderers agree on every note and every time, and a note is not active at the
exact instant it ends. -/
theorem claim_C8 (t : ℚ) (note : Note) :
    sheetIsActive t note = pianoIsPlayingNote t note ∧
    (sheetIsActive t note = true ↔ note.time ≤ t ∧ t < note.time + note.duration) ∧
    sheetIsActive (note.time + note.duration) note = false := by
  refine ⟨rfl, ?_, ?_⟩
  · simp [sheetIsActive, ge_iff_le]
  · simp [sheetIsActive]

/-- Witness for C8: the theorem applied at t = 0 and a concrete note. -/
theorem claim_C8_witness :
    sheetIsActive 0 { name := "C4", midi := 60, time := 0, duration := 1, velocity := 1 } =
      pianoIsPlayingNote 0 { name := "C4", midi := 60, time := 0, duration := 1, velocity := 1 } ∧
    (sheetIsActive 0 { name := "C4", midi := 60, time := 0, duration := 1, velocity := 1 } = true ↔
      (0 : ℚ) ≤ 0 ∧ (0 : ℚ) < 0 + 1) ∧
    sheetIsActive (0 + 1) { name := "C4", midi := 60, time := 0, duration := 1, velocity := 1 } = false :=
  claim_C8 0 { name := "C4", midi := 60, time := 0, duration := 1, velocity := 1 }

/-- C9: every pitch of the hard-coded melody is a key of getNoteY's lookup map
(all are in the mapped-pitch set), so when the built-in song is rendered the
lookup always takes the some-branch and the out-of-range linear fallback of
getNoteY is never reached. -/
theorem claim_C9 :
    (userSongAllNotes.all (fun n => (noteYMap n.midi).isSome)) = true ∧
    (userSongAllNotes.all (fun n => decide (n.midi ∈ mappedPitches))) = true ∧
    (userSongAllNotes.all (fun n => decide (n.midi ∈ ([60, 62, 64, 65, 67] : List ℤ)))) = true := by
  refine ⟨by decide, by decide, by decide⟩

/-- Membership in the first-occurrence deduplication: an element appears in the
output iff it appears in the input and was not already seen. -/
theorem mem_dedupFirstAux (x : String) :
    ∀ (l seen : List String), x ∈ dedupFirstAux seen l ↔ x ∈ l ∧ x ∉ seen := by
  intro l
  induction l with
  | nil => intro seen; simp [dedupFirstAux]
  | cons a as ih =>
    intro seen
    rw [dedupFirstAux]
    split_ifs with ha
    · rw [ih]
      constructor
      · rintro ⟨hx, hs⟩
        exact ⟨List.mem_cons_of_mem _ hx, hs⟩
      · rintro ⟨hx, hs⟩
        rcases List.mem_cons.mp hx with rfl | hx
        · exact absurd ha hs
        · exact ⟨hx, hs⟩
    · rw [List.mem_cons, ih]
      simp only [List.mem_cons, not_or]
      constructor
      · rintro (rfl | ⟨hx, hne, hs⟩)
        · exact ⟨Or.inl rfl, ha⟩
        · exact ⟨Or.inr hx, hs⟩
      · rintro ⟨rfl | hx, hs⟩
        · exact Or.inl rfl
        · by_cases hxa : x = a
          · exact Or.inl hxa
          · exact Or.inr ⟨hx, hxa, hs⟩

/-- The first-occurrence deduplication has no duplicates. -/
theorem nodup_dedupFirstAux :
    ∀ (l seen : List String), (dedupFirstAux seen l).Nodup := by
  intro l
  induction l with
  | nil => intro seen; simp [dedupFirstAux]
  | cons a as ih =>
    intro seen
    rw [dedupFirstAux]
    split_ifs with ha
    · exact ih seen
    · refine List.nodup_cons.mpr ⟨?_, ih (a :: seen)⟩
      rw [mem_dedupFirstAux]
      rintro ⟨-, hs⟩
      exact hs (List.mem_cons_self a seen)

/-- Two lists with the same set of elements have the same sorted
deduplication: a sorted duplicate-free list is determined by its element set. -/
theorem sortedDedup_eq_of_toFinset_eq (l1 l2 : List String)
    (h : l1.toFinset = l2.toFinset) :
    List.insertionSort (· ≤ ·) (dedupFirst l1) = List.insertionSort (· ≤ ·) (dedupFirst l2) := by
  have hmem : ∀ x, x ∈ dedupFirst l1 ↔ x ∈ dedupFirst l2 := by
    intro x
    rw [dedupFirst, dedupFirst, mem_dedupFirstAux, mem_dedupFirstAux]
    simp only [List.not_mem_nil, not_false_iff, and_true]
    rw [← List.mem_toFinset, h, List.mem_toFinset]
  have hperm : List.Perm (dedupFirst l1) (dedupFirst l2) :=
    (List.perm_ext_iff_of_nodup (nodup_dedupFirstAux l1 []) (nodup_dedupFirstAux l2 [])).mpr hmem
  have hperm2 : List.Perm
      (List.insertionSort (· ≤ ·) (dedupFirst l1)) (List.insertionSort (· ≤ ·) (dedupFirst l2)) :=
    ((List.perm_insertionSort _ _).trans hperm).trans (List.perm_insertionSort _ _).symm
  exact List.eq_of_perm_of_sorted hperm2
    (List.sorted_insertionSort _ _) (List.sorted_insertionSort _ _)

/-- The prompt tempo is a function of the claim's derived value: the first
entry's bpm, defaulted to 120 when the entry is absent. -/
theorem promptTempo_eq_of_headBpm_eq (m1 m2 : MidiData)
    (h : (m1.header.tempos.head?.map Tempo.bpm).getD 120 =
         (m2.header.tempos.head?.map Tempo.bpm).getD 120) :
    promptTempo m1 = promptTempo m2 := by
  rcases e1 : m1.header.tempos.head? with _ | t1 <;>
    rcases e2 : m2.header.tempos.head? with _ | t2 <;>
    simp only [promptTempo, e1, e2, Option.map_none', Option.map_some',
      Option.getD_none, Option.getD_some] at h ⊢ <;>
    first
      | rfl
      | (rw [← h]; norm_num)
      | (rw [h]; norm_num)
      | rw [h]

/-- C2: under every failure of the AI exchange — missing API key, empty tracks
array, rejected network call, missing or empty model response text, or
unparsable JSON — analyzeMidiForStudents does not reject: it returns exactly
the hard-coded fallback payload with difficulty Desconocida, the three fixed
Spanish tips and the fixed description string. -/
theorem claim_C2 (env : Env) (m : MidiData)
    (h : env.hasApiKey = false ∨ m.tracks = [] ∨ env.outcome = AiOutcome.reject ∨
         env.outcome = AiOutcome.resolve none ∨ env.outcome = AiOutcome.resolve (some "") ∨
         (∃ text, env.outcome = AiOutcome.resolve (some text) ∧ env.parseJson text = none)) :
    analyzeMidiForStudents env m = fallbackAnalysis ∧
    (analyzeMidiForStudents env m).difficulty = "Desconocida" ∧
    (analyzeMidiForStudents env m).tips =
      ["Practica despacio al principio.", "Asegúrate de tapar bien los agujeros.", "Disfruta la música."] ∧
    (analyzeMidiForStudents env m).description =
      "No pudimos conectar con el profesor virtual, ¡pero tú puedes hacerlo!" := by
  have hfb : analyzeMidiForStudents env m = fallbackAnalysis := by
    rcases hk : env.hasApiKey with _ | _
    · simp [analyzeMidiForStudents, analyzeMidiTry, hk]
    · rcases htr : m.tracks.head? with _ | tr
      · simp [analyzeMidiForStudents, analyzeMidiTry, hk, htr]
      · rcases h with h | h | h | h | h | ⟨text, hout, hparse⟩
        · rw [hk] at h
          cases h
        · simp [h] at htr
        · simp [analyzeMidiForStudents, analyzeMidiTry, hk, htr, h]
        · simp [analyzeMidiForStudents, analyzeMidiTry, hk, htr, h]
        · simp [analyzeMidiForStudents, analyzeMidiTry, hk, htr, h]
        · by_cases htext : text = ""
          · simp [analyzeMidiForStudents, analyzeMidiTry, hk, htr, hout, htext]
          · simp [analyzeMidiForStudents, analyzeMidiTry, hk, htr, hout, htext, hparse]
  refine ⟨hfb, ?_, ?_, ?_⟩ <;> rw [hfb] <;> rfl

/-- Witness for C2: a call with the API key absent returns the fallback. -/
theorem claim_C2_witness :
    analyzeMidiForStudents { hasApiKey := false, outcome := AiOutcome.reject, parseJson := fun _ => none }
        promptSampleLeft = fallbackAnalysis ∧
    (analyzeMidiForStudents { hasApiKey := false, outcome := AiOutcome.reject, parseJson := fun _ => none }
        promptSampleLeft).difficulty = "Desconocida" ∧
    (analyzeMidiForStudents { hasApiKey := false, outcome := AiOutcome.reject, parseJson := fun _ => none }
        promptSampleLeft).tips =
      ["Practica despacio al principio.", "Asegúrate de tapar bien los agujeros.", "Disfruta la música."] ∧
    (analyzeMidiForStudents { hasApiKey := false, outcome := AiOutcome.reject, parseJson := fun _ => none }
        promptSampleLeft).description =
      "No pudimos conectar con el profesor virtual, ¡pero tú puedes hacerlo!" :=
  claim_C2 { hasApiKey := false, outcome := AiOutcome.reject, parseJson := fun _ => none }
    promptSampleLeft (Or.inl rfl)

/-- C4: the prompt is a deterministic function of the sorted set of distinct
note names of track 0, the first tempo entry's bpm defaulted to 120 when
absent, and the duration rendered with two decimals: two inputs agreeing on
those three values produce character-for-character identical prompts,
regardless of note times, durations, velocities, extra tracks or instrument
metadata. -/
theorem claim_C4 (m1 m2 : MidiData) (tr1 tr2 : Track)
    (h1 : m1.tracks.head? = some tr1) (h2 : m2.tracks.head? = some tr2)
    (hnames : (tr1.notes.map (fun n => n.name)).toFinset =
              (tr2.notes.map (fun n => n.name)).toFinset)
    (htempo : (m1.header.tempos.head?.map Tempo.bpm).getD 120 =
              (m2.header.tempos.head?.map Tempo.bpm).getD 120)
    (hdur : toFixed2 m1.duration = toFixed2 m2.duration) :
    builtPrompt m1 = builtPrompt m2 := by
  rw [builtPrompt, builtPrompt, h1, h2, Option.map_some', Option.map_some']
  have hnotes : sortedUniqueNames tr1 = sortedUniqueNames tr2 := by
    rw [sortedUniqueNames, sortedUniqueNames]
    exact sortedDedup_eq_of_toFinset_eq _ _ hnames
  rw [buildPrompt, buildPrompt, hnotes, promptTempo_eq_of_headBpm_eq m1 m2 htempo, hdur]

/-- Witness for C4: the two sample inputs differ in note order, multiplicity,
times, durations, velocities, tempo-list shape, extra tracks and instrument,
yet agree on the three derived values and get identical prompts. -/
theorem claim_C4_witness :
    builtPrompt promptSampleLeft = builtPrompt promptSampleRight :=
  claim_C4 promptSampleLeft promptSampleRight
    (promptSampleLeft.tracks.get ⟨0, by decide⟩) (promptSampleRight.tracks.get ⟨0, by decide⟩)
    rfl rfl (by decide) rfl rfl

/-- C5: for every slider value in the enforced range 0.5 to 1.5,
handleSpeedChange stores the rate in playbackRate and sets the transport BPM
to the loaded song's original BPM times the rate, leaving the loaded MidiData
unchanged. -/
theorem claim_C5 (rate : ℚ) (s : AppState) (d : MidiData) (t : Tempo) (rest : List Tempo)
    (hr1 : (1 : ℚ)/2 ≤ rate) (hr2 : rate ≤ 3/2)
    (hd : s.midiData = some d) (ht : d.header.tempos = t :: rest) :
    handleSpeedChange rate s =
      some { midiData := some d, playbackRate := rate, transportBpm := t.bpm * rate } ∧
    (∀ s', handleSpeedChange rate s = some s' → s'.midiData = s.midiData) := by
  have hmain : handleSpeedChange rate s =
      some { midiData := some d, playbackRate := rate, transportBpm := t.bpm * rate } := by
    simp only [handleSpeedChange, hd, ht, List.head?_cons]
  refine ⟨hmain, ?_⟩
  intro s' hs'
  rw [hmain] at hs'
  cases hs'
  rw [hd]

/-- Witness for C5: the theorem applied to the built-in song (original BPM 120)
at rate 1.5. -/
theorem claim_C5_witness :
    handleSpeedChange (3/2) { midiData := some loadUserSong, playbackRate := 1, transportBpm := 120 } =
      some { midiData := some loadUserSong, playbackRate := 3/2,
             transportBpm := (120 : ℚ) * (3/2) } ∧
    (∀ s', handleSpeedChange (3/2)
        { midiData := some loadUserSong, playbackRate := 1, transportBpm := 120 } = some s' →
      s'.midiData =
        ({ midiData := some loadUserSong, playbackRate := 1, transportBpm := 120 } : AppState).midiData) :=
  claim_C5 (3/2) { midiData := some loadUserSong, playbackRate := 1, transportBpm := 120 }
    loadUserSong { bpm := 120 } [] (by norm_num) (by norm_num) rfl rfl

/-- C6: setupSynthesizers schedules exactly the notes of track 0 in stored
order, one Tone.Part event per note preserving time, name, duration and
velocity, and sets the transport BPM to the first tempo entry's bpm; no note
is duplicated, dropped or altered. -/
theorem claim_C6 (data : MidiData) (track : Track) (rest : List Track)
    (t : Tempo) (trest : List Tempo)
    (htr : data.tracks = track :: rest) (htm : data.header.tempos = t :: trest) :
    ∃ evs : List PartEvent,
      setupSynthesizers data = some (evs, t.bpm) ∧
      evs.length = track.notes.length ∧
      (∀ i : ℕ, ∀ hi : i < evs.length, ∀ hj : i < track.notes.length,
        (evs.get ⟨i, hi⟩).time = (track.notes.get ⟨i, hj⟩).time ∧
        (evs.get ⟨i, hi⟩).note = (track.notes.get ⟨i, hj⟩).name ∧
        (evs.get ⟨i, hi⟩).duration = (track.notes.get ⟨i, hj⟩).duration ∧
        (evs.get ⟨i, hi⟩).velocity = (track.notes.get ⟨i, hj⟩).velocity) := by
  refine ⟨track.notes.map (fun n =>
    { time := n.time, note := n.name, duration := n.duration, velocity := n.velocity }), ?_, ?_, ?_⟩
  · simp only [setupSynthesizers, htr, htm, List.head?_cons]
  · simp
  · intro i hi hj
    simp [List.get_map]

/-- Witness for C6: the theorem applied to the built-in song. -/
theorem claim_C6_witness :
    ∃ evs : List PartEvent,
      setupSynthesizers loadUserSong = some (evs, ({ bpm := 120 } : Tempo).bpm) ∧
      evs.length = (loadUserSong.tracks.get ⟨0, by decide⟩).notes.length ∧
      (∀ i : ℕ, ∀ hi : i < evs.length,
        ∀ hj : i < (loadUserSong.tracks.get ⟨0, by decide⟩).notes.length,
        (evs.get ⟨i, hi⟩).time = ((loadUserSong.tracks.get ⟨0, by decide⟩).notes.get ⟨i, hj⟩).time ∧
        (evs.get ⟨i, hi⟩).note = ((loadUserSong.tracks.get ⟨0, by decide⟩).notes.get ⟨i, hj⟩).name ∧
        (evs.get ⟨i, hi⟩).duration =
          ((loadUserSong.tracks.get ⟨0, by decide⟩).notes.get ⟨i, hj⟩).duration ∧
        (evs.get ⟨i, hi⟩).velocity =
          ((loadUserSong.tracks.get ⟨0, by decide⟩).notes.get ⟨i, hj⟩).velocity) :=
  claim_C6 loadUserSong (loadUserSong.tracks.get ⟨0, by decide⟩) [] { bpm := 120 } [] rfl rfl

/-- C10: when building the prompt, an absent first tempo entry or a 0 bpm is
replaced by 120 instead of failing; the prompt exists exactly when track 0
exists, and — provided the API key is present — only a missing track 0 diverts
execution to the error path before the prompt is built. -/
theorem claim_C10 (env : Env) (m : MidiData) :
    ((builtPrompt m).isSome ↔ m.tracks ≠ []) ∧
    (m.header.tempos = [] → promptTempo m = 120) ∧
    (∀ t rest, m.header.tempos = t :: rest → t.bpm = 0 → promptTempo m = 120) ∧
    (∀ tr rest, m.tracks = tr :: rest →
      builtPrompt m = some (promptTemplate
        (String.intercalate (", ") (sortedUniqueNames tr)) (promptTempo m) (toFixed2 m.duration))) ∧
    (env.hasApiKey = true →
      (analyzeMidiTry env m = Except.error ("No tracks found") ↔ m.tracks = [])) := by
  refine ⟨?_, ?_, ?_, ?_, ?_⟩
  · rw [builtPrompt]
    rcases htr : m.tracks with _ | ⟨tr, rest⟩ <;> simp
  · intro h
    simp [promptTempo, h]
  · intro t rest h hb
    simp [promptTempo, h, hb]
  · intro tr rest h
    rw [builtPrompt, h]
    rfl
  · intro hk
    rcases htr : m.tracks with _ | ⟨tr, rest⟩
    · simp [analyzeMidiTry, hk, htr]
    · constructor
      · intro hcontra
        exfalso
        rcases ho : env.outcome with _ | text
        · simp [analyzeMidiTry, hk, htr, ho] at hcontra
        · rcases text with _ | text
          · simp [analyzeMidiTry, hk, htr, ho] at hcontra
          · by_cases htext : text = ""
            · simp [analyzeMidiTry, hk, htr, ho, htext] at hcontra
            · rcases hp : env.parseJson text with _ | r <;>
                simp [analyzeMidiTry, hk, htr, ho, htext, hp] at hcontra
      · intro hcontra
        cases hcontra

/-- Witness for C10: the theorem applied to the sample input with an empty
tempo list, discharging the tempo-absent implication. -/
theorem claim_C10_witness :
    promptTempo promptSampleLeft = 120 :=
  (claim_C10 { hasApiKey := true, outcome := AiOutcome.reject, parseJson := fun _ => none }
    promptSampleLeft).2.1 rfl

end Flauta
